import Mathlib

/-!
Shallow embedding of the response-generation logic of the
minikube-apm-nginx-sandbox repository: the Go service
(`src/golang-api/main.go`) and the Node.js service
(`src/nodejs-api/src/app.js`).  Both services expose two handlers:
`GET /` (randomized success / client-error / server-error responses) and
`GET /health`.  Random draws, clock readings and trace identifiers are
passed to the embedded handlers as explicit arguments.
-/

/-- A JSON value, the target of response serialization. -/
inductive Json where
  | str (s : String)
  | num (n : Nat)
  | bool (b : Bool)
  | obj (fields : List (String × Json))
  deriving Repr

/-- The key list of a JSON object (empty for non-objects). -/
def Json.keys : Json → List String
  | .obj fs => fs.map (fun p => p.1)
  | _ => []

/-- Whether a JSON value is an object. -/
def Json.isObj : Json → Bool
  | .obj _ => true
  | _ => false

/-- Look up a key in a JSON object. -/
def Json.lookup (j : Json) (k : String) : Option Json :=
  match j with
  | .obj fs => (fs.find? (fun p => p.1 = k)).map (fun p => p.2)
  | _ => none

/-- A value carried by one field of a structured log line. -/
inductive LogValue where
  | str (s : String)
  | num (n : Nat)
  | bool (b : Bool)
  deriving DecidableEq, Repr

/-- One structured log line: severity level, message, and extra fields
(logrus `WithFields` in Go, nothing beyond level/message in the Node
winston calls). -/
structure LogRecord where
  level : String
  message : String
  fields : List (String × LogValue)
  deriving DecidableEq, Repr

/-- `true` iff the record carries a field with the given key. -/
def LogRecord.hasField (rec : LogRecord) (k : String) : Bool :=
  rec.fields.any (fun p => p.1 = k)

/-- A calendar clock reading (UTC), the input of timestamp formatting. -/
structure DateTime where
  year : Nat
  month : Nat
  day : Nat
  hour : Nat
  minute : Nat
  second : Nat
  millis : Nat
  deriving DecidableEq, Repr

/-- The decimal digit character for `n % 10`. -/
def digitChar (n : Nat) : Char := Char.ofNat (48 + n % 10)

/-- Fixed-width two-digit decimal rendering, as produced by Go's
`time.Format` and JavaScript's `toISOString` for month/day/time fields. -/
def pad2Chars (n : Nat) : List Char := [digitChar (n / 10), digitChar n]

/-- Fixed-width three-digit decimal rendering (milliseconds). -/
def pad3Chars (n : Nat) : List Char :=
  [digitChar (n / 100), digitChar (n / 10), digitChar n]

/-- Fixed-width four-digit decimal rendering (years). -/
def pad4Chars (n : Nat) : List Char :=
  [digitChar (n / 1000), digitChar (n / 100), digitChar (n / 10), digitChar n]

/-- Model of Go's `time.Now().UTC().Format(time.RFC3339)`:
`YYYY-MM-DDThh:mm:ssZ`. -/
def formatRFC3339 (t : DateTime) : String :=
  String.mk (pad4Chars t.year ++ ['-'] ++ pad2Chars t.month ++ ['-'] ++
    pad2Chars t.day ++ ['T'] ++ pad2Chars t.hour ++ [':'] ++
    pad2Chars t.minute ++ [':'] ++ pad2Chars t.second ++ ['Z'])

/-- Model of JavaScript's `new Date().toISOString()`:
`YYYY-MM-DDThh:mm:ss.mmmZ`. -/
def toISOString (t : DateTime) : String :=
  String.mk (pad4Chars t.year ++ ['-'] ++ pad2Chars t.month ++ ['-'] ++
    pad2Chars t.day ++ ['T'] ++ pad2Chars t.hour ++ [':'] ++
    pad2Chars t.minute ++ [':'] ++ pad2Chars t.second ++ ['.'] ++
    pad3Chars t.millis ++ ['Z'])

/-- Structural well-formedness of an RFC3339 UTC timestamp
`YYYY-MM-DDThh:mm:ssZ` (character classes at each position). -/
def isRFC3339Chars : List Char → Bool
  | [y1, y2, y3, y4, '-', m1, m2, '-', d1, d2, 'T',
     h1, h2, ':', n1, n2, ':', s1, s2, 'Z'] =>
    y1.isDigit && y2.isDigit && y3.isDigit && y4.isDigit &&
    m1.isDigit && m2.isDigit && d1.isDigit && d2.isDigit &&
    h1.isDigit && h2.isDigit && n1.isDigit && n2.isDigit &&
    s1.isDigit && s2.isDigit
  | _ => false

/-- Structural well-formedness of an ISO-8601 UTC timestamp with
milliseconds `YYYY-MM-DDThh:mm:ss.mmmZ`. -/
def isISO8601MillisChars : List Char → Bool
  | [y1, y2, y3, y4, '-', m1, m2, '-', d1, d2, 'T',
     h1, h2, ':', n1, n2, ':', s1, s2, '.', f1, f2, f3, 'Z'] =>
    y1.isDigit && y2.isDigit && y3.isDigit && y4.isDigit &&
    m1.isDigit && m2.isDigit && d1.isDigit && d2.isDigit &&
    h1.isDigit && h2.isDigit && n1.isDigit && n2.isDigit &&
    s1.isDigit && s2.isDigit && f1.isDigit && f2.isDigit && f3.isDigit
  | _ => false

/-- `isRFC3339Chars` applied to a string's characters. -/
def isRFC3339 (s : String) : Bool := isRFC3339Chars s.data

/-- `isISO8601MillisChars` applied to a string's characters. -/
def isISO8601Millis (s : String) : Bool := isISO8601MillisChars s.data

theorem digitChar_isDigit (n : Nat) : (digitChar n).isDigit = true := by
  have h : n % 10 < 10 := Nat.mod_lt _ (by omega)
  unfold digitChar
  interval_cases h : (n % 10) <;> decide

theorem formatRFC3339_valid (t : DateTime) :
    isRFC3339 (formatRFC3339 t) = true := by
  simp [isRFC3339, formatRFC3339, pad4Chars, pad2Chars, isRFC3339Chars,
    digitChar_isDigit]

theorem toISOString_valid (t : DateTime) :
    isISO8601Millis (toISOString t) = true := by
  simp [isISO8601Millis, toISOString, pad4Chars, pad2Chars, pad3Chars,
    isISO8601MillisChars, digitChar_isDigit]

namespace GoApi

/-- `ErrorResponse` of `src/golang-api/main.go` (`request_id` has the
`omitempty` JSON option). -/
structure ErrorResponse where
  Error : String
  Message : String
  Code : String
  Timestamp : String
  RequestID : String
  deriving DecidableEq, Repr

/-- `SuccessResponse` of `src/golang-api/main.go` (`request_id` has the
`omitempty` JSON option). -/
structure SuccessResponse where
  Status : String
  Message : String
  Timestamp : String
  RequestID : String
  deriving DecidableEq, Repr

/-- JSON encoding of `SuccessResponse`: `encoding/json` emits struct
fields in declaration order and drops an `omitempty` string field when
it is empty. -/
def SuccessResponse.toJson (r : SuccessResponse) : Json :=
  .obj ([("status", .str r.Status), ("message", .str r.Message),
    ("timestamp", .str r.Timestamp)] ++
    (if r.RequestID = "" then [] else [("request_id", .str r.RequestID)]))

/-- JSON encoding of `ErrorResponse` (same `omitempty` handling). -/
def ErrorResponse.toJson (r : ErrorResponse) : Json :=
  .obj ([("error", .str r.Error), ("message", .str r.Message),
    ("code", .str r.Code), ("timestamp", .str r.Timestamp)] ++
    (if r.RequestID = "" then [] else [("request_id", .str r.RequestID)]))

/-- `ErrorScenario` of `src/golang-api/main.go`. -/
structure ErrorScenario where
  StatusCode : Nat
  ErrorCode : String
  Message : String
  Reason : String
  deriving DecidableEq, Repr

/-- The static `errorScenarios` catalog of `src/golang-api/main.go`. -/
def errorScenarios : List ErrorScenario :=
  [⟨400, "INVALID_REQUEST", "Invalid request format",
     "Missing required parameter 'user_id'"⟩,
   ⟨400, "VALIDATION_ERROR", "Request validation failed",
     "Email format is invalid"⟩,
   ⟨400, "MISSING_AUTH", "Authentication required",
     "Authorization header is missing or malformed"⟩,
   ⟨500, "DATABASE_ERROR", "Internal database error",
     "Connection to user database failed"⟩,
   ⟨500, "SERVICE_UNAVAILABLE", "External service error",
     "Payment service is temporarily unavailable"⟩,
   ⟨500, "TIMEOUT_ERROR", "Request timeout",
     "Upstream service did not respond within 30 seconds"⟩]

/-- The body written by a handler: either a `SuccessResponse` or an
`ErrorResponse`. -/
inductive Body where
  | success (r : SuccessResponse)
  | error (r : ErrorResponse)
  deriving DecidableEq, Repr

/-- JSON encoding of a body. -/
def Body.toJson : Body → Json
  | .success r => r.toJson
  | .error r => r.toJson

/-- What a handler writes to the `http.ResponseWriter`: status code,
`Content-Type` header, body. -/
structure HttpResponse where
  statusCode : Nat
  contentType : String
  body : Body
  deriving DecidableEq, Repr

/-- The request data the Go root handler reads. -/
structure Request where
  method : String
  url : String
  remoteAddr : String
  userAgent : String
  deriving DecidableEq, Repr

/-- Hexadecimal digit character. -/
def hexDigitChar (n : Nat) : Char :=
  if n % 16 < 10 then Char.ofNat (48 + n % 16) else Char.ofNat (87 + n % 16)

/-- Model of Go's `fmt.Sprintf("%016x", id)` for a 64-bit id. -/
def hex016 (n : Nat) : String :=
  String.mk ((List.range 16).map (fun i => hexDigitChar (n / 16 ^ (15 - i))))

/-- `randomStatusHandler` of `src/golang-api/main.go`.

The sources of nondeterminism are explicit arguments: `nowNano` is the
`time.Now().UnixNano()` reading used for the request id, `traceID` and
`spanID` come from the started span, `outcome` is the `rand.Float64()`
draw (a value in `[0,1)`, modelled as a rational), `errDraw` is the
`rand.Intn(3)` draw, and `now` is the clock reading formatted into the
response timestamp.  The result is the written response together with
the list of emitted structured log lines. -/
def randomStatusHandler (r : Request) (nowNano traceID spanID : Nat)
    (outcome : ℚ) (errDraw : Fin 3) (now : DateTime) :
    HttpResponse × List LogRecord :=
  let requestID := "req_" ++ toString nowNano
  let baseFields : List (String × LogValue) :=
    [("url", .str r.url), ("method", .str r.method),
     ("remote_addr", .str r.remoteAddr), ("request_id", .str requestID),
     ("user_agent", .str r.userAgent), ("trace_id_dec", .num traceID),
     ("trace_id_hex", .str (hex016 traceID)), ("span_id_dec", .num spanID),
     ("span_id_hex", .str (hex016 spanID))]
  let timestamp := formatRFC3339 now
  if outcome < 0.5 then
    (⟨200, "application/json",
       .success ⟨"success", "Request processed successfully", timestamp,
         requestID⟩⟩,
     [⟨"info", "Request processed successfully",
        baseFields ++ [("status_code", .num 200), ("response", .str "success")]⟩])
  else if outcome < 0.8 then
    let scenario := errorScenarios.get (Fin.castLE (by decide) errDraw)
    (⟨scenario.StatusCode, "application/json",
       .error ⟨scenario.ErrorCode, scenario.Message, scenario.Reason,
         timestamp, requestID⟩⟩,
     [⟨"error", "Client error occurred",
        baseFields ++ [("status_code", .num scenario.StatusCode),
          ("error_code", .str scenario.ErrorCode),
          ("error_message", .str scenario.Message),
          ("error_reason", .str scenario.Reason),
          ("error_type", .str "client_error")]⟩])
  else
    let scenario := errorScenarios.get
      (Fin.castLE (by decide)
        (⟨3 + errDraw.val, Nat.add_lt_add_left errDraw.isLt 3⟩ : Fin 6))
    (⟨scenario.StatusCode, "application/json",
       .error ⟨scenario.ErrorCode, scenario.Message, scenario.Reason,
         timestamp, requestID⟩⟩,
     [⟨"error", "Server error occurred",
        baseFields ++ [("status_code", .num scenario.StatusCode),
          ("error_code", .str scenario.ErrorCode),
          ("error_message", .str scenario.Message),
          ("error_reason", .str scenario.Reason),
          ("error_type", .str "server_error")]⟩])

/-- `healthHandler` of `src/golang-api/main.go`: a fixed 200 response;
its `SuccessResponse` literal leaves `RequestID` at the zero value. -/
def healthHandler (now : DateTime) : HttpResponse :=
  ⟨200, "application/json",
    .success ⟨"healthy", "Service is healthy", formatRFC3339 now, ""⟩⟩

end GoApi

namespace NodeApi

/-- One entry of the `errorScenarios` array of
`src/nodejs-api/src/app.js`. -/
structure ErrorScenario where
  statusCode : Nat
  errorCode : String
  message : String
  reason : String
  deriving DecidableEq, Repr

/-- The static `errorScenarios` array of `src/nodejs-api/src/app.js`. -/
def errorScenarios : List ErrorScenario :=
  [⟨400, "INVALID_REQUEST", "Invalid request format",
     "Missing required parameter 'user_id'"⟩,
   ⟨400, "VALIDATION_ERROR", "Request validation failed",
     "Email format is invalid"⟩,
   ⟨400, "MISSING_AUTH", "Authentication required",
     "Authorization header is missing or malformed"⟩,
   ⟨500, "DATABASE_ERROR", "Internal database error",
     "Connection to user database failed"⟩,
   ⟨500, "SERVICE_UNAVAILABLE", "External service error",
     "Payment service is temporarily unavailable"⟩,
   ⟨500, "TIMEOUT_ERROR", "Request timeout",
     "Upstream service did not respond within 30 seconds"⟩]

/-- The success object literal built by the Node root/health handlers:
`{status, message, timestamp}` — no `request_id` key exists. -/
structure SuccessBody where
  status : String
  message : String
  timestamp : String
  deriving DecidableEq, Repr

/-- The error object literal built by the Node root handler:
`{error, message, code, timestamp}` — no `request_id` key exists. -/
structure ErrorBody where
  error : String
  message : String
  code : String
  timestamp : String
  deriving DecidableEq, Repr

/-- The body passed to `res.json(...)`. -/
inductive Body where
  | success (r : SuccessBody)
  | error (r : ErrorBody)
  deriving DecidableEq, Repr

/-- JSON encoding of a Node body (object-literal key order). -/
def Body.toJson : Body → Json
  | .success r => .obj [("status", .str r.status), ("message", .str r.message),
      ("timestamp", .str r.timestamp)]
  | .error r => .obj [("error", .str r.error), ("message", .str r.message),
      ("code", .str r.code), ("timestamp", .str r.timestamp)]

/-- What a Node handler sends: status code, `Content-Type` header, body. -/
structure HttpResponse where
  statusCode : Nat
  contentType : String
  body : Body
  deriving DecidableEq, Repr

/-- The `app.get('/')` handler of `src/nodejs-api/src/app.js`.

`outcome` is the `Math.random()` draw and `errDraw` the
`Math.floor(Math.random() * 3)` draw; `now` is the `new Date()` reading
taken at handler entry.  The winston `logger.info` / `logger.error`
calls carry only a severity level and a message. -/
def rootHandler (outcome : ℚ) (errDraw : Fin 3) (now : DateTime) :
    HttpResponse × List LogRecord :=
  let timestamp := toISOString now
  if outcome < 0.5 then
    (⟨200, "application/json",
       .success ⟨"success", "Request processed successfully", timestamp⟩⟩,
     [⟨"info", "Request processed successfully", []⟩])
  else if outcome < 0.8 then
    let scenario := errorScenarios.get (Fin.castLE (by decide) errDraw)
    (⟨scenario.statusCode, "application/json",
       .error ⟨scenario.errorCode, scenario.message, scenario.reason,
         timestamp⟩⟩,
     [⟨"error", "Client error occurred", []⟩])
  else
    let scenario := errorScenarios.get
      (Fin.castLE (by decide)
        (⟨3 + errDraw.val, Nat.add_lt_add_left errDraw.isLt 3⟩ : Fin 6))
    (⟨scenario.statusCode, "application/json",
       .error ⟨scenario.errorCode, scenario.message, scenario.reason,
         timestamp⟩⟩,
     [⟨"error", "Server error occurred", []⟩])

/-- The `app.get('/health')` handler of `src/nodejs-api/src/app.js`. -/
def healthHandler (now : DateTime) : HttpResponse :=
  ⟨200, "application/json",
    .success ⟨"healthy", "Service is healthy", toISOString now⟩⟩

end NodeApi

/-- The outcome class of the data model (§3 of the spec). -/
inductive OutcomeClass where
  | success
  | clientError
  | serverError
  deriving DecidableEq, Repr

/-- Outcome class of a Go response, read off its status code. -/
def GoApi.HttpResponse.outcomeClass (r : GoApi.HttpResponse) : OutcomeClass :=
  if r.statusCode = 200 then .success
  else if r.statusCode = 400 then .clientError
  else .serverError

/-- Outcome class of a Node response, read off its status code. -/
def NodeApi.HttpResponse.outcomeClass (r : NodeApi.HttpResponse) : OutcomeClass :=
  if r.statusCode = 200 then .success
  else if r.statusCode = 400 then .clientError
  else .serverError

/-- The fields of a Go body that the cross-implementation contract
compares: outcome-dependent payload content, stripped of the
per-request `timestamp` and `request_id`. -/
inductive AbsBody where
  | success (status message : String)
  | error (error message code : String)
  deriving DecidableEq, Repr

/-- Abstraction of a Go body. -/
def GoApi.Body.abs : GoApi.Body → AbsBody
  | .success r => .success r.Status r.Message
  | .error r => .error r.Error r.Message r.Code

/-- Abstraction of a Node body. -/
def NodeApi.Body.abs : NodeApi.Body → AbsBody
  | .success r => .success r.status r.message
  | .error r => .error r.error r.message r.code

/-- The `error` field of a Go body, when it is an error body. -/
def GoApi.Body.errorField : GoApi.Body → Option String
  | .error r => some r.Error
  | _ => none

/-- The `error` field of a Node body, when it is an error body. -/
def NodeApi.Body.errorField : NodeApi.Body → Option String
  | .error r => some r.error
  | _ => none

/-- The `timestamp` field of a Go body. -/
def GoApi.Body.timestamp : GoApi.Body → String
  | .success r => r.Timestamp
  | .error r => r.Timestamp

/-- The `timestamp` field of a Node body. -/
def NodeApi.Body.timestamp : NodeApi.Body → String
  | .success r => r.timestamp
  | .error r => r.timestamp

/-- Whether a JSON value is a string. -/
def Json.isStr : Json → Bool
  | .str _ => true
  | _ => false

/-- Whether a JSON value is an object all of whose field values are
strings. -/
def Json.stringValued : Json → Bool
  | .obj fs => fs.all (fun p => p.2.isStr)
  | _ => false

/-- The SuccessResponse wire shape of §3 of the spec: a JSON object of
string fields whose keys are `status`, `message`, `timestamp` and an
optional trailing `request_id`. -/
def successShape (j : Json) : Bool :=
  j.stringValued &&
    (j.keys = ["status", "message", "timestamp"] ||
     j.keys = ["status", "message", "timestamp", "request_id"])

/-- The ErrorResponse wire shape of §3 of the spec: a JSON object of
string fields whose keys are `error`, `message`, `code`, `timestamp`
and an optional trailing `request_id`. -/
def errorShape (j : Json) : Bool :=
  j.stringValued &&
    (j.keys = ["error", "message", "code", "timestamp"] ||
     j.keys = ["error", "message", "code", "timestamp", "request_id"])

/-- The per-request log-line contract of §6 of the spec: the record
carries the HTTP method, the url (path), the remote address, the
generated request id, the user agent, an outcome classification
(`response: success` or an `error_type`), the assigned status code,
and trace/span identifiers. -/
def logHasRequired (rec : LogRecord) : Bool :=
  rec.hasField "method" && rec.hasField "url" && rec.hasField "remote_addr" &&
  rec.hasField "request_id" && rec.hasField "user_agent" &&
  (rec.hasField "response" || rec.hasField "error_type") &&
  rec.hasField "status_code" &&
  rec.hasField "trace_id_dec" && rec.hasField "trace_id_hex" &&
  rec.hasField "span_id_dec" && rec.hasField "span_id_hex"

/-- The (HTTP status, error, message, code) quadruple of a Go response,
when its body is an error body. -/
def GoApi.HttpResponse.errQuad (resp : GoApi.HttpResponse) :
    Option (Nat × String × String × String) :=
  match resp.body with
  | .error e => some (resp.statusCode, e.Error, e.Message, e.Code)
  | _ => none

/-- The (HTTP status, error, message, code) quadruple of a Node
response, when its body is an error body. -/
def NodeApi.HttpResponse.errQuad (resp : NodeApi.HttpResponse) :
    Option (Nat × String × String × String) :=
  match resp.body with
  | .error e => some (resp.statusCode, e.error, e.message, e.code)
  | _ => none

/-- The 6 (status, error, message, code) tuples of the static catalog. -/
def catalogQuads : List (Nat × String × String × String) :=
  GoApi.errorScenarios.map (fun s => (s.StatusCode, s.ErrorCode, s.Message, s.Reason))

/-- C1: in both implementations of handle_root, the outcome class is
determined solely by the first uniform draw via the fixed thresholds: a
draw in `[0, 0.5)` yields Success with status 200, a draw in
`[0.5, 0.8)` yields ClientError with status 400, and a draw in
`[0.8, 1)` yields ServerError with status 500 — in particular the
boundary draws `0.5` and `0.8` fall in the ClientError and ServerError
classes respectively. -/
theorem c1_outcome_thresholds (r : GoApi.Request)
    (nowNano traceID spanID : Nat) (outcome : ℚ) (errDraw : Fin 3)
    (now nowN : DateTime) :
    (outcome < 0.5 →
      (GoApi.randomStatusHandler r nowNano traceID spanID outcome errDraw
        now).1.statusCode = 200 ∧
      (GoApi.randomStatusHandler r nowNano traceID spanID outcome errDraw
        now).1.outcomeClass = .success ∧
      (NodeApi.rootHandler outcome errDraw nowN).1.statusCode = 200 ∧
      (NodeApi.rootHandler outcome errDraw nowN).1.outcomeClass = .success) ∧
    (0.5 ≤ outcome → outcome < 0.8 →
      (GoApi.randomStatusHandler r nowNano traceID spanID outcome errDraw
        now).1.statusCode = 400 ∧
      (GoApi.randomStatusHandler r nowNano traceID spanID outcome errDraw
        now).1.outcomeClass = .clientError ∧
      (NodeApi.rootHandler outcome errDraw nowN).1.statusCode = 400 ∧
      (NodeApi.rootHandler outcome errDraw nowN).1.outcomeClass = .clientError) ∧
    (0.8 ≤ outcome → outcome < 1 →
      (GoApi.randomStatusHandler r nowNano traceID spanID outcome errDraw
        now).1.statusCode = 500 ∧
      (GoApi.randomStatusHandler r nowNano traceID spanID outcome errDraw
        now).1.outcomeClass = .serverError ∧
      (NodeApi.rootHandler outcome errDraw nowN).1.statusCode = 500 ∧
      (NodeApi.rootHandler outcome errDraw nowN).1.outcomeClass = .serverError) := by
  refine ⟨fun h => ?_, fun h1 h2 => ?_, fun h1 h2 => ?_⟩
  · simp [GoApi.randomStatusHandler, NodeApi.rootHandler,
      GoApi.HttpResponse.outcomeClass, NodeApi.HttpResponse.outcomeClass, h]
  · fin_cases errDraw <;>
      simp [GoApi.randomStatusHandler, NodeApi.rootHandler,
        GoApi.HttpResponse.outcomeClass, NodeApi.HttpResponse.outcomeClass,
        GoApi.errorScenarios, NodeApi.errorScenarios, not_lt.mpr h1, h2]
  · have h0 : ¬ outcome < 0.5 := not_lt.mpr (le_trans (by norm_num) h1)
    fin_cases errDraw <;>
      simp [GoApi.randomStatusHandler, NodeApi.rootHandler,
        GoApi.HttpResponse.outcomeClass, NodeApi.HttpResponse.outcomeClass,
        GoApi.errorScenarios, NodeApi.errorScenarios, h0, not_lt.mpr h1] <;>
      decide

/-- Boundary-draw witness for C1: a draw of exactly `0.5` yields a 400
ClientError and a draw of exactly `0.8` yields a 500 ServerError, in
both implementations. -/
theorem c1_outcome_thresholds_witness :
    (GoApi.randomStatusHandler ⟨"GET", "/", "127.0.0.1:1", "curl"⟩ 1 2 3
      (0.5 : ℚ) 0 ⟨2026, 1, 2, 3, 4, 5, 6⟩).1.statusCode = 400 ∧
    (NodeApi.rootHandler (0.5 : ℚ) 0 ⟨2026, 1, 2, 3, 4, 5, 6⟩).1.statusCode = 400 ∧
    (GoApi.randomStatusHandler ⟨"GET", "/", "127.0.0.1:1", "curl"⟩ 1 2 3
      (0.8 : ℚ) 0 ⟨2026, 1, 2, 3, 4, 5, 6⟩).1.statusCode = 500 ∧
    (NodeApi.rootHandler (0.8 : ℚ) 0 ⟨2026, 1, 2, 3, 4, 5, 6⟩).1.statusCode = 500 := by
  obtain ⟨-, hc, -⟩ := c1_outcome_thresholds ⟨"GET", "/", "127.0.0.1:1", "curl"⟩
    1 2 3 (0.5 : ℚ) 0 ⟨2026, 1, 2, 3, 4, 5, 6⟩ ⟨2026, 1, 2, 3, 4, 5, 6⟩
  obtain ⟨-, -, hs⟩ := c1_outcome_thresholds ⟨"GET", "/", "127.0.0.1:1", "curl"⟩
    1 2 3 (0.8 : ℚ) 0 ⟨2026, 1, 2, 3, 4, 5, 6⟩ ⟨2026, 1, 2, 3, 4, 5, 6⟩
  obtain ⟨g4, -, n4, -⟩ := hc (by norm_num) (by norm_num)
  obtain ⟨g5, -, n5, -⟩ := hs (by norm_num) (by norm_num)
  exact ⟨g4, n4, g5, n5⟩

theorem req_prefix_ne_empty (s : String) : ("req_" ++ s) ≠ "" := by
  intro h
  have hl := congrArg String.length h
  simp [String.length_append] at hl
  exact absurd hl.1 (by decide)

/-- C5: handle_root is a total function of its inputs in both
implementations: for every request and every pair of draws it yields
status 200, 400 or 500, with `Content-Type: application/json` and a
body that serializes to a JSON object matching the SuccessResponse or
ErrorResponse shape. -/
theorem c5_total_valid_json (r : GoApi.Request)
    (nowNano traceID spanID : Nat) (outcome : ℚ) (errDraw : Fin 3)
    (now nowN : DateTime) :
    ((GoApi.randomStatusHandler r nowNano traceID spanID outcome errDraw
        now).1.statusCode = 200 ∨
     (GoApi.randomStatusHandler r nowNano traceID spanID outcome errDraw
        now).1.statusCode = 400 ∨
     (GoApi.randomStatusHandler r nowNano traceID spanID outcome errDraw
        now).1.statusCode = 500) ∧
    (GoApi.randomStatusHandler r nowNano traceID spanID outcome errDraw
      now).1.contentType = "application/json" ∧
    (successShape (GoApi.randomStatusHandler r nowNano traceID spanID outcome
        errDraw now).1.body.toJson ||
     errorShape (GoApi.randomStatusHandler r nowNano traceID spanID outcome
        errDraw now).1.body.toJson) = true ∧
    ((NodeApi.rootHandler outcome errDraw nowN).1.statusCode = 200 ∨
     (NodeApi.rootHandler outcome errDraw nowN).1.statusCode = 400 ∨
     (NodeApi.rootHandler outcome errDraw nowN).1.statusCode = 500) ∧
    (NodeApi.rootHandler outcome errDraw nowN).1.contentType =
      "application/json" ∧
    (successShape (NodeApi.rootHandler outcome errDraw nowN).1.body.toJson ||
     errorShape (NodeApi.rootHandler outcome errDraw nowN).1.body.toJson) = true := by
  have hreq := req_prefix_ne_empty (toString nowNano)
  rcases lt_or_le outcome 0.5 with h | h
  · simp [GoApi.randomStatusHandler, NodeApi.rootHandler,
      GoApi.Body.toJson, NodeApi.Body.toJson, GoApi.SuccessResponse.toJson,
      successShape, errorShape, Json.keys, Json.stringValued, Json.isStr,
      hreq, h]
  · have h0 := not_lt.mpr h
    rcases lt_or_le outcome 0.8 with h2 | h2
    · fin_cases errDraw <;>
        simp [GoApi.randomStatusHandler, NodeApi.rootHandler,
          GoApi.Body.toJson, NodeApi.Body.toJson, GoApi.ErrorResponse.toJson,
          GoApi.errorScenarios, NodeApi.errorScenarios,
          successShape, errorShape, Json.keys, Json.stringValued, Json.isStr,
          hreq, h0, h2] <;>
        decide
    · fin_cases errDraw <;>
        simp [GoApi.randomStatusHandler, NodeApi.rootHandler,
          GoApi.Body.toJson, NodeApi.Body.toJson, GoApi.ErrorResponse.toJson,
          GoApi.errorScenarios, NodeApi.errorScenarios,
          successShape, errorShape, Json.keys, Json.stringValued, Json.isStr,
          hreq, h0, not_lt.mpr h2] <;>
        decide

/-- C6: the Go and Node.js implementations of handle_root agree on every
pair of draws: same outcome class, same HTTP status code, same error
triple (error, message, code) on error outcomes, and same status and
message fields on success. -/
theorem c6_go_node_equivalent (r : GoApi.Request)
    (nowNano traceID spanID : Nat) (outcome : ℚ) (errDraw : Fin 3)
    (now nowN : DateTime) :
    (GoApi.randomStatusHandler r nowNano traceID spanID outcome errDraw
      now).1.statusCode = (NodeApi.rootHandler outcome errDraw nowN).1.statusCode ∧
    (GoApi.randomStatusHandler r nowNano traceID spanID outcome errDraw
      now).1.outcomeClass =
      (NodeApi.rootHandler outcome errDraw nowN).1.outcomeClass ∧
    (GoApi.randomStatusHandler r nowNano traceID spanID outcome errDraw
      now).1.body.abs = (NodeApi.rootHandler outcome errDraw nowN).1.body.abs := by
  rcases lt_or_le outcome 0.5 with h | h
  · simp [GoApi.randomStatusHandler, NodeApi.rootHandler,
      GoApi.HttpResponse.outcomeClass, NodeApi.HttpResponse.outcomeClass,
      GoApi.Body.abs, NodeApi.Body.abs, h]
  · have h0 := not_lt.mpr h
    rcases lt_or_le outcome 0.8 with h2 | h2
    · fin_cases errDraw <;>
        simp [GoApi.randomStatusHandler, NodeApi.rootHandler,
          GoApi.HttpResponse.outcomeClass, NodeApi.HttpResponse.outcomeClass,
          GoApi.Body.abs, NodeApi.Body.abs,
          GoApi.errorScenarios, NodeApi.errorScenarios, h0, h2] <;>
        decide
    · fin_cases errDraw <;>
        simp [GoApi.randomStatusHandler, NodeApi.rootHandler,
          GoApi.HttpResponse.outcomeClass, NodeApi.HttpResponse.outcomeClass,
          GoApi.Body.abs, NodeApi.Body.abs,
          GoApi.errorScenarios, NodeApi.errorScenarios, h0, not_lt.mpr h2] <;>
        decide

/-- C7 counterexample: the claim fails on the Node.js implementation.
On a success draw, `app.get('/')` emits exactly one winston log line,
but that line carries only a severity level and a message — it contains
no HTTP method, path, remote address, request id, user agent or status
code field. -/
theorem c7_counterexample :
    (NodeApi.rootHandler (0.25 : ℚ) 0 ⟨2026, 1, 2, 3, 4, 5, 6⟩).2 =
      [⟨"info", "Request processed successfully", []⟩] ∧
    logHasRequired ⟨"info", "Request processed successfully", []⟩ = false := by
  constructor
  · norm_num [NodeApi.rootHandler]
  · decide

/-- C7 amended: both implementations emit exactly one structured log
line per handle_root request; the Go line carries the HTTP method, the
request url (path), the remote address, the generated request id, the
user agent, an outcome classification, the assigned status code, and
the trace and span identifiers in decimal and hex, while the Node line
carries only a severity level and an outcome-classification message,
with no structured fields of its own. -/
theorem c7_one_log_line (r : GoApi.Request)
    (nowNano traceID spanID : Nat) (outcome : ℚ) (errDraw : Fin 3)
    (now nowN : DateTime) :
    (GoApi.randomStatusHandler r nowNano traceID spanID outcome errDraw
      now).2.length = 1 ∧
    ((GoApi.randomStatusHandler r nowNano traceID spanID outcome errDraw
      now).2.all logHasRequired) = true ∧
    (NodeApi.rootHandler outcome errDraw nowN).2.length = 1 ∧
    ((NodeApi.rootHandler outcome errDraw nowN).2.all
      (fun rec => rec.fields.isEmpty)) = true := by
  rcases lt_or_le outcome 0.5 with h | h
  · simp [GoApi.randomStatusHandler, NodeApi.rootHandler,
      logHasRequired, LogRecord.hasField, h]
  · have h0 := not_lt.mpr h
    rcases lt_or_le outcome 0.8 with h2 | h2
    · fin_cases errDraw <;>
        simp [GoApi.randomStatusHandler, NodeApi.rootHandler,
          GoApi.errorScenarios, NodeApi.errorScenarios,
          logHasRequired, LogRecord.hasField, h0, h2] <;>
        decide
    · fin_cases errDraw <;>
        simp [GoApi.randomStatusHandler, NodeApi.rootHandler,
          GoApi.errorScenarios, NodeApi.errorScenarios,
          logHasRequired, LogRecord.hasField, h0, not_lt.mpr h2] <;>
        decide

/-- C8: in every response body of handle_root and handle_health, the
`timestamp` field is exactly the formatting of the clock reading taken
inside the handler invocation — RFC3339 (`YYYY-MM-DDThh:mm:ssZ`) in Go
and ISO-8601 with milliseconds (`toISOString`) in Node — and that
string is structurally valid RFC3339 / ISO-8601. -/
theorem c8_timestamps (r : GoApi.Request)
    (nowNano traceID spanID : Nat) (outcome : ℚ) (errDraw : Fin 3)
    (now nowN nowH nowHN : DateTime) :
    (GoApi.randomStatusHandler r nowNano traceID spanID outcome errDraw
      now).1.body.timestamp = formatRFC3339 now ∧
    isRFC3339 ((GoApi.randomStatusHandler r nowNano traceID spanID outcome
      errDraw now).1.body.timestamp) = true ∧
    (GoApi.healthHandler nowH).body.timestamp = formatRFC3339 nowH ∧
    isRFC3339 ((GoApi.healthHandler nowH).body.timestamp) = true ∧
    (NodeApi.rootHandler outcome errDraw nowN).1.body.timestamp =
      toISOString nowN ∧
    isISO8601Millis ((NodeApi.rootHandler outcome errDraw
      nowN).1.body.timestamp) = true ∧
    (NodeApi.healthHandler nowHN).body.timestamp = toISOString nowHN ∧
    isISO8601Millis ((NodeApi.healthHandler nowHN).body.timestamp) = true := by
  have hgo : (GoApi.randomStatusHandler r nowNano traceID spanID outcome
      errDraw now).1.body.timestamp = formatRFC3339 now := by
    rcases lt_or_le outcome 0.5 with h | h
    · simp [GoApi.randomStatusHandler, GoApi.Body.timestamp, h]
    · have h0 := not_lt.mpr h
      rcases lt_or_le outcome 0.8 with h2 | h2
      · simp [GoApi.randomStatusHandler, GoApi.Body.timestamp, h0, h2]
      · simp [GoApi.randomStatusHandler, GoApi.Body.timestamp, h0,
          not_lt.mpr h2]
  have hnode : (NodeApi.rootHandler outcome errDraw nowN).1.body.timestamp =
      toISOString nowN := by
    rcases lt_or_le outcome 0.5 with h | h
    · simp [NodeApi.rootHandler, NodeApi.Body.timestamp, h]
    · have h0 := not_lt.mpr h
      rcases lt_or_le outcome 0.8 with h2 | h2
      · simp [NodeApi.rootHandler, NodeApi.Body.timestamp, h0, h2]
      · simp [NodeApi.rootHandler, NodeApi.Body.timestamp, h0, not_lt.mpr h2]
  refine ⟨hgo, ?_, rfl, ?_, hnode, ?_, rfl, ?_⟩
  · rw [hgo]; exact formatRFC3339_valid now
  · exact formatRFC3339_valid nowH
  · rw [hnode]; exact toISOString_valid nowN
  · exact toISOString_valid nowHN

/-- C9: in both implementations, the (HTTP status, error, message,
code) quadruple of every error response lies in the 6-tuple catalog,
every catalog tuple is produced by some pair of draws, and distinct
catalog tuples have distinct `error` codes — so the `error` code
uniquely determines the whole error payload. -/
theorem c9_error_quadruples (r : GoApi.Request)
    (nowNano traceID spanID : Nat) (now nowN : DateTime) :
    (∀ (outcome : ℚ) (errDraw : Fin 3),
      ((GoApi.randomStatusHandler r nowNano traceID spanID outcome errDraw
        now).1.errQuad.all (fun q => decide (q ∈ catalogQuads))) = true) ∧
    (∀ (outcome : ℚ) (errDraw : Fin 3),
      ((NodeApi.rootHandler outcome errDraw nowN).1.errQuad.all
        (fun q => decide (q ∈ catalogQuads))) = true) ∧
    (∀ q, q ∈ catalogQuads →
      ∃ (outcome : ℚ) (errDraw : Fin 3),
        (GoApi.randomStatusHandler r nowNano traceID spanID outcome errDraw
          now).1.errQuad = some q ∧
        (NodeApi.rootHandler outcome errDraw nowN).1.errQuad = some q) ∧
    (∀ q₁ q₂, q₁ ∈ catalogQuads → q₂ ∈ catalogQuads →
      q₁.2.1 = q₂.2.1 → q₁ = q₂) := by
  refine ⟨fun outcome errDraw => ?_, fun outcome errDraw => ?_,
    fun q hq => ?_, fun q₁ q₂ h₁ h₂ => by
      fin_cases h₁ <;> fin_cases h₂ <;> decide⟩
  · rcases lt_or_le outcome 0.5 with h | h
    · simp [GoApi.randomStatusHandler, GoApi.HttpResponse.errQuad, h]
    · have h0 := not_lt.mpr h
      rcases lt_or_le outcome 0.8 with h2 | h2
      · fin_cases errDraw <;>
          simp [GoApi.randomStatusHandler, GoApi.HttpResponse.errQuad,
            GoApi.errorScenarios, catalogQuads, h0, h2] <;>
          decide
      · fin_cases errDraw <;>
          simp [GoApi.randomStatusHandler, GoApi.HttpResponse.errQuad,
            GoApi.errorScenarios, catalogQuads, h0, not_lt.mpr h2] <;>
          decide
  · rcases lt_or_le outcome 0.5 with h | h
    · simp [NodeApi.rootHandler, NodeApi.HttpResponse.errQuad, h]
    · have h0 := not_lt.mpr h
      rcases lt_or_le outcome 0.8 with h2 | h2
      · fin_cases errDraw <;>
          simp [NodeApi.rootHandler, NodeApi.HttpResponse.errQuad,
            NodeApi.errorScenarios, catalogQuads, h0, h2] <;>
          decide
      · fin_cases errDraw <;>
          simp [NodeApi.rootHandler, NodeApi.HttpResponse.errQuad,
            NodeApi.errorScenarios, catalogQuads, h0, not_lt.mpr h2] <;>
          decide
  · have hc0 : ¬ ((0.6 : ℚ) < 0.5) := by norm_num
    have hc2 : ((0.6 : ℚ) < 0.8) := by norm_num
    have hs0 : ¬ ((0.9 : ℚ) < 0.5) := by norm_num
    have hs2 : ¬ ((0.9 : ℚ) < 0.8) := by norm_num
    simp only [catalogQuads, GoApi.errorScenarios, List.map, List.mem_cons,
      List.not_mem_nil, or_false] at hq
    rcases hq with rfl | rfl | rfl | rfl | rfl | rfl
    · exact ⟨0.6, 0, by
        simp [GoApi.randomStatusHandler, NodeApi.rootHandler,
          GoApi.HttpResponse.errQuad, NodeApi.HttpResponse.errQuad,
          GoApi.errorScenarios, NodeApi.errorScenarios, hc0, hc2] <;> decide⟩
    · exact ⟨0.6, 1, by
        simp [GoApi.randomStatusHandler, NodeApi.rootHandler,
          GoApi.HttpResponse.errQuad, NodeApi.HttpResponse.errQuad,
          GoApi.errorScenarios, NodeApi.errorScenarios, hc0, hc2] <;> decide⟩
    · exact ⟨0.6, 2, by
        simp [GoApi.randomStatusHandler, NodeApi.rootHandler,
          GoApi.HttpResponse.errQuad, NodeApi.HttpResponse.errQuad,
          GoApi.errorScenarios, NodeApi.errorScenarios, hc0, hc2] <;> decide⟩
    · exact ⟨0.9, 0, by
        simp [GoApi.randomStatusHandler, NodeApi.rootHandler,
          GoApi.HttpResponse.errQuad, NodeApi.HttpResponse.errQuad,
          GoApi.errorScenarios, NodeApi.errorScenarios, hs0, hs2] <;> decide⟩
    · exact ⟨0.9, 1, by
        simp [GoApi.randomStatusHandler, NodeApi.rootHandler,
          GoApi.HttpResponse.errQuad, NodeApi.HttpResponse.errQuad,
          GoApi.errorScenarios, NodeApi.errorScenarios, hs0, hs2] <;> decide⟩
    · exact ⟨0.9, 2, by
        simp [GoApi.randomStatusHandler, NodeApi.rootHandler,
          GoApi.HttpResponse.errQuad, NodeApi.HttpResponse.errQuad,
          GoApi.errorScenarios, NodeApi.errorScenarios, hs0, hs2] <;> decide⟩

/-- Witness for C9 at concrete inputs: the DATABASE_ERROR catalog tuple
is produced by some pair of draws in both implementations. -/
theorem c9_error_quadruples_witness :
    ∃ (outcome : ℚ) (errDraw : Fin 3),
      (GoApi.randomStatusHandler ⟨"GET", "/", "127.0.0.1:1", "curl"⟩ 1 2 3
        outcome errDraw ⟨2026, 1, 2, 3, 4, 5, 6⟩).1.errQuad =
        some (500, "DATABASE_ERROR", "Internal database error",
          "Connection to user database failed") ∧
      (NodeApi.rootHandler outcome errDraw ⟨2026, 1, 2, 3, 4, 5, 6⟩).1.errQuad =
        some (500, "DATABASE_ERROR", "Internal database error",
          "Connection to user database failed") := by
  obtain ⟨-, -, hcov, -⟩ := c9_error_quadruples
    ⟨"GET", "/", "127.0.0.1:1", "curl"⟩ 1 2 3
    ⟨2026, 1, 2, 3, 4, 5, 6⟩ ⟨2026, 1, 2, 3, 4, 5, 6⟩
  exact hcov (500, "DATABASE_ERROR", "Internal database error",
    "Connection to user database failed") (by decide)

/-- C10: every response body of the Go root handler carries a
`request_id` JSON field equal to `"req_"` followed by the decimal
nanosecond clock reading, while the Go health response and both Node
responses carry no `request_id` field at all. -/
theorem c10_request_id_presence (r : GoApi.Request)
    (nowNano traceID spanID : Nat) (outcome : ℚ) (errDraw : Fin 3)
    (now nowN nowH nowHN : DateTime) :
    (GoApi.randomStatusHandler r nowNano traceID spanID outcome errDraw
      now).1.body.toJson.lookup "request_id" =
      some (.str ("req_" ++ toString nowNano)) ∧
    (GoApi.healthHandler nowH).body.toJson.lookup "request_id" = none ∧
    (NodeApi.rootHandler outcome errDraw nowN).1.body.toJson.lookup
      "request_id" = none ∧
    (NodeApi.healthHandler nowHN).body.toJson.lookup "request_id" = none := by
  have hreq := req_prefix_ne_empty (toString nowNano)
  refine ⟨?_, ?_, ?_, ?_⟩
  · rcases lt_or_le outcome 0.5 with h | h
    · simp [GoApi.randomStatusHandler, GoApi.Body.toJson,
        GoApi.SuccessResponse.toJson, Json.lookup, hreq, h]
    · have h0 := not_lt.mpr h
      rcases lt_or_le outcome 0.8 with h2 | h2
      · fin_cases errDraw <;>
          simp [GoApi.randomStatusHandler, GoApi.Body.toJson,
            GoApi.ErrorResponse.toJson, GoApi.errorScenarios, Json.lookup,
            hreq, h0, h2]
      · fin_cases errDraw <;>
          simp [GoApi.randomStatusHandler, GoApi.Body.toJson,
            GoApi.ErrorResponse.toJson, GoApi.errorScenarios, Json.lookup,
            hreq, h0, not_lt.mpr h2]
  · simp [GoApi.healthHandler, GoApi.Body.toJson,
      GoApi.SuccessResponse.toJson, Json.lookup]
  · rcases lt_or_le outcome 0.5 with h | h
    · simp [NodeApi.rootHandler, NodeApi.Body.toJson, Json.lookup, h]
    · have h0 := not_lt.mpr h
      rcases lt_or_le outcome 0.8 with h2 | h2
      · fin_cases errDraw <;>
          simp [NodeApi.rootHandler, NodeApi.Body.toJson,
            NodeApi.errorScenarios, Json.lookup, h0, h2]
      · fin_cases errDraw <;>
          simp [NodeApi.rootHandler, NodeApi.Body.toJson,
            NodeApi.errorScenarios, Json.lookup, h0, not_lt.mpr h2]
  · simp [NodeApi.healthHandler, NodeApi.Body.toJson, Json.lookup]

/-- C2: in both implementations of handle_root, every 400 response has
an `error` field drawn from exactly {INVALID_REQUEST, VALIDATION_ERROR,
MISSING_AUTH} and every 500 response has an `error` field drawn from
exactly {DATABASE_ERROR, SERVICE_UNAVAILABLE, TIMEOUT_ERROR}: the
fields always lie in those sets, and every member of each set is
produced by some pair of draws. -/
theorem c2_error_field_sets (r : GoApi.Request)
    (nowNano traceID spanID : Nat) (now nowN : DateTime) :
    (∀ (outcome : ℚ) (errDraw : Fin 3),
      ((GoApi.randomStatusHandler r nowNano traceID spanID outcome errDraw
          now).1.statusCode = 400 →
        (GoApi.randomStatusHandler r nowNano traceID spanID outcome errDraw
          now).1.body.errorField ∈
          [some "INVALID_REQUEST", some "VALIDATION_ERROR", some "MISSING_AUTH"]) ∧
      ((GoApi.randomStatusHandler r nowNano traceID spanID outcome errDraw
          now).1.statusCode = 500 →
        (GoApi.randomStatusHandler r nowNano traceID spanID outcome errDraw
          now).1.body.errorField ∈
          [some "DATABASE_ERROR", some "SERVICE_UNAVAILABLE", some "TIMEOUT_ERROR"]) ∧
      ((NodeApi.rootHandler outcome errDraw nowN).1.statusCode = 400 →
        (NodeApi.rootHandler outcome errDraw nowN).1.body.errorField ∈
          [some "INVALID_REQUEST", some "VALIDATION_ERROR", some "MISSING_AUTH"]) ∧
      ((NodeApi.rootHandler outcome errDraw nowN).1.statusCode = 500 →
        (NodeApi.rootHandler outcome errDraw nowN).1.body.errorField ∈
          [some "DATABASE_ERROR", some "SERVICE_UNAVAILABLE", some "TIMEOUT_ERROR"])) ∧
    (∀ e, e ∈ ["INVALID_REQUEST", "VALIDATION_ERROR", "MISSING_AUTH"] →
      ∃ (outcome : ℚ) (errDraw : Fin 3),
        (GoApi.randomStatusHandler r nowNano traceID spanID outcome errDraw
          now).1.statusCode = 400 ∧
        (GoApi.randomStatusHandler r nowNano traceID spanID outcome errDraw
          now).1.body.errorField = some e ∧
        (NodeApi.rootHandler outcome errDraw nowN).1.statusCode = 400 ∧
        (NodeApi.rootHandler outcome errDraw nowN).1.body.errorField = some e) ∧
    (∀ e, e ∈ ["DATABASE_ERROR", "SERVICE_UNAVAILABLE", "TIMEOUT_ERROR"] →
      ∃ (outcome : ℚ) (errDraw : Fin 3),
        (GoApi.randomStatusHandler r nowNano traceID spanID outcome errDraw
          now).1.statusCode = 500 ∧
        (GoApi.randomStatusHandler r nowNano traceID spanID outcome errDraw
          now).1.body.errorField = some e ∧
        (NodeApi.rootHandler outcome errDraw nowN).1.statusCode = 500 ∧
        (NodeApi.rootHandler outcome errDraw nowN).1.body.errorField = some e) := by
  refine ⟨fun outcome errDraw => ?_, fun e he => ?_, fun e he => ?_⟩
  · rcases lt_or_le outcome 0.5 with h | h
    · simp [GoApi.randomStatusHandler, NodeApi.rootHandler,
        GoApi.Body.errorField, NodeApi.Body.errorField, h]
    · have h0 := not_lt.mpr h
      rcases lt_or_le outcome 0.8 with h2 | h2
      · fin_cases errDraw <;>
          simp [GoApi.randomStatusHandler, NodeApi.rootHandler,
            GoApi.Body.errorField, NodeApi.Body.errorField,
            GoApi.errorScenarios, NodeApi.errorScenarios, h0, h2] <;>
          decide
      · fin_cases errDraw <;>
          simp [GoApi.randomStatusHandler, NodeApi.rootHandler,
            GoApi.Body.errorField, NodeApi.Body.errorField,
            GoApi.errorScenarios, NodeApi.errorScenarios, h0,
            not_lt.mpr h2] <;>
          decide
  · have h0 : ¬ ((0.6 : ℚ) < 0.5) := by norm_num
    have h2 : ((0.6 : ℚ) < 0.8) := by norm_num
    simp only [List.mem_cons, List.not_mem_nil, or_false] at he
    rcases he with rfl | rfl | rfl
    · exact ⟨0.6, 0, by
        simp [GoApi.randomStatusHandler, NodeApi.rootHandler,
          GoApi.Body.errorField, NodeApi.Body.errorField,
          GoApi.errorScenarios, NodeApi.errorScenarios, h0, h2] <;> decide⟩
    · exact ⟨0.6, 1, by
        simp [GoApi.randomStatusHandler, NodeApi.rootHandler,
          GoApi.Body.errorField, NodeApi.Body.errorField,
          GoApi.errorScenarios, NodeApi.errorScenarios, h0, h2] <;> decide⟩
    · exact ⟨0.6, 2, by
        simp [GoApi.randomStatusHandler, NodeApi.rootHandler,
          GoApi.Body.errorField, NodeApi.Body.errorField,
          GoApi.errorScenarios, NodeApi.errorScenarios, h0, h2] <;> decide⟩
  · have h0 : ¬ ((0.9 : ℚ) < 0.5) := by norm_num
    have h2 : ¬ ((0.9 : ℚ) < 0.8) := by norm_num
    simp only [List.mem_cons, List.not_mem_nil, or_false] at he
    rcases he with rfl | rfl | rfl
    · exact ⟨0.9, 0, by
        simp [GoApi.randomStatusHandler, NodeApi.rootHandler,
          GoApi.Body.errorField, NodeApi.Body.errorField,
          GoApi.errorScenarios, NodeApi.errorScenarios, h0, h2] <;> decide⟩
    · exact ⟨0.9, 1, by
        simp [GoApi.randomStatusHandler, NodeApi.rootHandler,
          GoApi.Body.errorField, NodeApi.Body.errorField,
          GoApi.errorScenarios, NodeApi.errorScenarios, h0, h2] <;> decide⟩
    · exact ⟨0.9, 2, by
        simp [GoApi.randomStatusHandler, NodeApi.rootHandler,
          GoApi.Body.errorField, NodeApi.Body.errorField,
          GoApi.errorScenarios, NodeApi.errorScenarios, h0, h2] <;> decide⟩

/-- Witness for C2 at concrete inputs: the 400 response produced by the
draw pair `(0.6, 2)` carries one of the three client error codes, and
`DATABASE_ERROR` is attainable as a 500 `error` field. -/
theorem c2_error_field_sets_witness :
    ((GoApi.randomStatusHandler ⟨"GET", "/", "127.0.0.1:1", "curl"⟩ 1 2 3
        (0.6 : ℚ) 2 ⟨2026, 1, 2, 3, 4, 5, 6⟩).1.body.errorField ∈
      [some "INVALID_REQUEST", some "VALIDATION_ERROR", some "MISSING_AUTH"]) ∧
    (∃ (outcome : ℚ) (errDraw : Fin 3),
      (GoApi.randomStatusHandler ⟨"GET", "/", "127.0.0.1:1", "curl"⟩ 1 2 3
        outcome errDraw ⟨2026, 1, 2, 3, 4, 5, 6⟩).1.statusCode = 500 ∧
      (GoApi.randomStatusHandler ⟨"GET", "/", "127.0.0.1:1", "curl"⟩ 1 2 3
        outcome errDraw ⟨2026, 1, 2, 3, 4, 5, 6⟩).1.body.errorField =
        some "DATABASE_ERROR" ∧
      (NodeApi.rootHandler outcome errDraw ⟨2026, 1, 2, 3, 4, 5, 6⟩).1.statusCode = 500 ∧
      (NodeApi.rootHandler outcome errDraw
        ⟨2026, 1, 2, 3, 4, 5, 6⟩).1.body.errorField = some "DATABASE_ERROR") := by
  obtain ⟨hmem, hcov400, hcov500⟩ := c2_error_field_sets
    ⟨"GET", "/", "127.0.0.1:1", "curl"⟩ 1 2 3
    ⟨2026, 1, 2, 3, 4, 5, 6⟩ ⟨2026, 1, 2, 3, 4, 5, 6⟩
  refine ⟨(hmem 0.6 2).1 ?_, hcov500 "DATABASE_ERROR" (by simp)⟩
  norm_num [GoApi.randomStatusHandler, GoApi.errorScenarios]

/-- C3: in both implementations the error-scenario catalog has exactly
6 entries, the first 3 with status 400 (ClientError) and the last 3
with status 500 (ServerError); the ClientError branch of handle_root
selects the catalog entry at the index given by the second draw (0–2)
and the ServerError branch the entry at that index plus the offset 3
(indices 3–5). -/
theorem c3_catalog_selection (r : GoApi.Request)
    (nowNano traceID spanID : Nat) (outcome : ℚ) (errDraw : Fin 3)
    (now nowN : DateTime) :
    GoApi.errorScenarios.length = 6 ∧
    NodeApi.errorScenarios.length = 6 ∧
    (∀ i : Fin 6,
      (GoApi.errorScenarios.get (Fin.castLE (by decide) i)).StatusCode =
        if i.val < 3 then 400 else 500) ∧
    (∀ i : Fin 6,
      (NodeApi.errorScenarios.get (Fin.castLE (by decide) i)).statusCode =
        if i.val < 3 then 400 else 500) ∧
    (0.5 ≤ outcome → outcome < 0.8 →
      ((GoApi.randomStatusHandler r nowNano traceID spanID outcome errDraw
          now).1.statusCode =
        (GoApi.errorScenarios.get (Fin.castLE (by decide) errDraw)).StatusCode ∧
       (GoApi.randomStatusHandler r nowNano traceID spanID outcome errDraw
          now).1.body.errorField =
        some (GoApi.errorScenarios.get (Fin.castLE (by decide) errDraw)).ErrorCode ∧
       (NodeApi.rootHandler outcome errDraw nowN).1.statusCode =
        (NodeApi.errorScenarios.get (Fin.castLE (by decide) errDraw)).statusCode ∧
       (NodeApi.rootHandler outcome errDraw nowN).1.body.errorField =
        some (NodeApi.errorScenarios.get (Fin.castLE (by decide) errDraw)).errorCode)) ∧
    (0.8 ≤ outcome →
      ((GoApi.randomStatusHandler r nowNano traceID spanID outcome errDraw
          now).1.statusCode =
        (GoApi.errorScenarios.get (Fin.castLE (by decide)
          (⟨3 + errDraw.val, Nat.add_lt_add_left errDraw.isLt 3⟩ : Fin 6))).StatusCode ∧
       (GoApi.randomStatusHandler r nowNano traceID spanID outcome errDraw
          now).1.body.errorField =
        some (GoApi.errorScenarios.get (Fin.castLE (by decide)
          (⟨3 + errDraw.val, Nat.add_lt_add_left errDraw.isLt 3⟩ : Fin 6))).ErrorCode ∧
       (NodeApi.rootHandler outcome errDraw nowN).1.statusCode =
        (NodeApi.errorScenarios.get (Fin.castLE (by decide)
          (⟨3 + errDraw.val, Nat.add_lt_add_left errDraw.isLt 3⟩ : Fin 6))).statusCode ∧
       (NodeApi.rootHandler outcome errDraw nowN).1.body.errorField =
        some (NodeApi.errorScenarios.get (Fin.castLE (by decide)
          (⟨3 + errDraw.val, Nat.add_lt_add_left errDraw.isLt 3⟩ : Fin 6))).errorCode)) := by
  refine ⟨rfl, rfl, by decide, by decide, fun h1 h2 => ?_, fun h1 => ?_⟩
  · have h0 := not_lt.mpr h1
    fin_cases errDraw <;>
      simp [GoApi.randomStatusHandler, NodeApi.rootHandler,
        GoApi.Body.errorField, NodeApi.Body.errorField,
        GoApi.errorScenarios, NodeApi.errorScenarios, h0, h2] <;>
      decide
  · have h0 : ¬ outcome < 0.5 := not_lt.mpr (le_trans (by norm_num) h1)
    have h2 : ¬ outcome < 0.8 := not_lt.mpr h1
    fin_cases errDraw <;>
      simp [GoApi.randomStatusHandler, NodeApi.rootHandler,
        GoApi.Body.errorField, NodeApi.Body.errorField,
        GoApi.errorScenarios, NodeApi.errorScenarios, h0, h2] <;>
      decide

/-- Witness for C3 at concrete inputs: with a first draw of `0.85` and
a second draw of `1`, both implementations serve catalog entry 4
(`SERVICE_UNAVAILABLE`, status 500). -/
theorem c3_catalog_selection_witness :
    (GoApi.randomStatusHandler ⟨"GET", "/", "127.0.0.1:1", "curl"⟩ 1 2 3
      (0.85 : ℚ) 1 ⟨2026, 1, 2, 3, 4, 5, 6⟩).1.statusCode =
      (GoApi.errorScenarios.get (Fin.castLE (by decide)
        (⟨3 + (1 : Fin 3).val, Nat.add_lt_add_left (1 : Fin 3).isLt 3⟩ : Fin 6))).StatusCode ∧
    (NodeApi.rootHandler (0.85 : ℚ) 1 ⟨2026, 1, 2, 3, 4, 5, 6⟩).1.body.errorField =
      some (NodeApi.errorScenarios.get (Fin.castLE (by decide)
        (⟨3 + (1 : Fin 3).val, Nat.add_lt_add_left (1 : Fin 3).isLt 3⟩ : Fin 6))).errorCode := by
  obtain ⟨-, -, -, -, -, hs⟩ := c3_catalog_selection
    ⟨"GET", "/", "127.0.0.1:1", "curl"⟩ 1 2 3 (0.85 : ℚ) 1
    ⟨2026, 1, 2, 3, 4, 5, 6⟩ ⟨2026, 1, 2, 3, 4, 5, 6⟩
  obtain ⟨hg, -, -, hn⟩ := hs (by norm_num)
  exact ⟨hg, hn⟩

/-- C4: both implementations of handle_health return, for every clock
reading, exactly status 200 with `Content-Type: application/json` and a
body with `status = "healthy"` and `message = "Service is healthy"`;
the handlers consume no random draw (they are functions of the clock
reading alone). -/
theorem c4_health_fixed (now nowN : DateTime) :
    GoApi.healthHandler now =
      ⟨200, "application/json",
        .success ⟨"healthy", "Service is healthy", formatRFC3339 now, ""⟩⟩ ∧
    NodeApi.healthHandler nowN =
      ⟨200, "application/json",
        .success ⟨"healthy", "Service is healthy", toISOString nowN⟩⟩ :=
  ⟨rfl, rfl⟩

